import Mathlib

/-!
Verification of the ChordCloud playlist-assembly pipeline against its
specification.  The Python sources (app.py, app3.py, main2.py) are embedded
shallowly: the external services (the Spotify catalog, the Serper keyword
search, the LlamaIndex agent) are modelled as explicit environments that
supply the responses the services would return, and every outbound API call
the code issues is recorded in an explicit trace so that properties about
which calls are made, with which arguments and credentials, can be stated.
-/

namespace ChordCloud

/-- A catalog track as returned by the streaming service's search and
recommendation endpoints.  The artist field stands for the name of the first
listed artist (Python: track['artists'][0]['name']). -/
structure Track where
  name : String
  artist : String
  id : String
  uri : String
  deriving DecidableEq, Repr

/-- Authentication mode a Spotify client object was constructed with:
app-only client credentials, or user-delegated OAuth with a scope string. -/
inductive AuthMode where
  | clientCredentials
  | oauthUser (scope : String)
  deriving DecidableEq, Repr

/-- An outbound call to the catalog service, with the arguments the source
passes at each call site. -/
inductive ApiCall where
  | search (q : String) (ty : String) (limit : Nat)
  | userPlaylistCreate (userId : String) (playlistName : String) (isPublic : Bool)
  | playlistAddItems (playlistId : String) (uris : List String)
  | recommendations (seedIds : List String) (limit : Nat)
  deriving DecidableEq, Repr

/-- An API call together with the authentication mode of the client that
issued it. -/
structure IssuedCall where
  auth : AuthMode
  call : ApiCall
  deriving DecidableEq, Repr

/-- Environment modelling the external services used by app3.py: the catalog
search response for each query (before the limit is applied), the playlist id
the service assigns on user_playlist_create, and the agent's chat response. -/
structure SpotifyEnv where
  searchResults : String → List Track
  createdPlaylistId : String → String → String
  chatResponse : String → String

/-- Scope string the playlist-mutating client is constructed with in
create_spotify_playlist (app3.py line 28: scope="playlist-modify-private"). -/
def oauthScope : String := "playlist-modify-private"

/-- Leading text of the confirmation message (app3.py line 52). -/
def msgHead : String := "Your playlist has been created! [Open Playlist]("

/-- Base of the playlist URL embedded in the confirmation (app3.py line 52). -/
def urlBase : String := "https://open.spotify.com/playlist/"

/-- Confirmation string returned by create_spotify_playlist
(app3.py line 52, an f-string interpolating playlist_id). -/
def successMessage (playlist_id : String) : String :=
  msgHead ++ (urlBase ++ playlist_id ++ ")")

/-- One resolution step of the for-loop of create_spotify_playlist
(app3.py lines 40-45): search(q=song, type="track", limit=1) and take the
top hit's uri when the item list is non-empty, nothing otherwise. -/
def resolveTrackUri (env : SpotifyEnv) (song : String) : Option String :=
  match (env.searchResults song).take 1 with
  | [] => none
  | t :: _ => some t.uri

/-- The for-loop of create_spotify_playlist (app3.py lines 39-45): for each
song, one search call with type "track" and limit 1; the top hit's uri is
appended to track_uris when present.  Returns the accumulated uris and the
search calls in source order. -/
def resolveLoop (env : SpotifyEnv) : List String → List String × List IssuedCall
  | [] => ([], [])
  | song :: rest =>
    let r := resolveLoop env rest
    match (env.searchResults song).take 1 with
    | [] =>
      (r.1, ⟨AuthMode.oauthUser oauthScope, ApiCall.search song "track" 1⟩ :: r.2)
    | t :: _ =>
      (t.uri :: r.1, ⟨AuthMode.oauthUser oauthScope, ApiCall.search song "track" 1⟩ :: r.2)

/-- Embedding of create_spotify_playlist (app3.py lines 27-52).  The client
is built with user-delegated OAuth and the playlist-modify-private scope; a
private playlist is created for user_id, every song is resolved by a limit-1
track search, the resolved uris are appended in one batched call when the
list is non-empty, and the confirmation message is returned together with
the trace of issued calls. -/
def create_spotify_playlist (env : SpotifyEnv) (user_id : String)
    (playlist_name : String) (song_list : List String) :
    String × List IssuedCall :=
  let auth := AuthMode.oauthUser oauthScope
  let playlist_id := env.createdPlaylistId user_id playlist_name
  let r := resolveLoop env song_list
  let addCalls : List IssuedCall :=
    if r.1.isEmpty then [] else [⟨auth, ApiCall.playlistAddItems playlist_id r.1⟩]
  (successMessage playlist_id,
    ⟨auth, ApiCall.userPlaylistCreate user_id playlist_name false⟩ :: (r.2 ++ addCalls))

/-- Embedding of the tool function song_recommendation_function
(app3.py lines 98-107): a limit-5 track search; the sentinel string when no
tracks come back, otherwise the newline-joined "name by artist" lines.
Returns the formatted string and the search call issued. -/
def song_recommendation_function (env : SpotifyEnv) (query : String) :
    String × List IssuedCall :=
  let tracks := (env.searchResults query).take 5
  (if tracks.isEmpty then "No song recommendations found."
   else String.intercalate "\n" (tracks.map fun t => t.name ++ " by " ++ t.artist),
   [⟨AuthMode.oauthUser oauthScope, ApiCall.search query "track" 5⟩])

/-- Python str.split("\n"), modelled on the character list (an empty string
yields the one-element list containing the empty string, as in Python). -/
def splitLines (s : String) : List String :=
  (s.data.splitOn '\n').map String.mk

/-- Embedding of PlaylistGeneratorWithLlamaIndex.generate_playlist
(app3.py lines 122-138): chat with the agent, re-invoke the
song-recommendation tool on the refined query, split its output on newlines
and hand the resulting list straight to create_spotify_playlist. -/
def generate_playlist (env : SpotifyEnv) (user_query : String) (user_id : String) :
    String × List IssuedCall :=
  let refined_query := env.chatResponse user_query
  let toolResult := song_recommendation_function env refined_query
  let song_list := splitLines toolResult.1
  let created := create_spotify_playlist env user_id "Generated Playlist" song_list
  (created.1, toolResult.2 ++ created.2)

/-- One organic result of the keyword-search response; only the title field
is read by the code, and it may be missing (app.py line 49: if 'title' in
result). -/
structure OrganicResult where
  title : Option String
  deriving DecidableEq, Repr

/-- Outcome of the keyword-search HTTP request: a 2xx response whose body
holds an organic array, or a requests.RequestException (transport failure or
a non-2xx status surfaced by raise_for_status). -/
inductive SerperOutcome where
  | ok (organic : List OrganicResult)
  | requestError (msg : String)
  deriving DecidableEq, Repr

/-- Body of the keyword-search response as the caller sees it. -/
structure SerperResponse where
  organic : List OrganicResult
  deriving DecidableEq, Repr

/-- Embedding of fetch_playlist_data (app.py lines 28-44): on success the
response body is returned unchanged; on any RequestException the error is
caught, a warning is surfaced through st.error, and the literal
body with an empty organic array is returned instead of propagating.
The second component is the list of surfaced warnings. -/
def fetch_playlist_data : SerperOutcome → SerperResponse × List String
  | SerperOutcome.ok organic => (⟨organic⟩, [])
  | SerperOutcome.requestError e =>
    (⟨[]⟩, ["Error fetching data from Serper: " ++ e])

/-- The candidate extraction of create_playlist (app.py line 49): the title
of each organic result that has one, in result order. -/
def relevant_songs (resp : SerperResponse) : List String :=
  resp.organic.filterMap (fun r => r.title)

/-- Environment for recommend_similar_songs (app.py lines 57-73): the
catalog search response per query, the recommender response per seed id and
limit, and an optional exception raised by either service call (the body is
wrapped in try/except Exception). -/
structure RecEnv where
  searchResults : String → List Track
  recommendations : String → Nat → List Track
  exn : Option String

/-- Embedding of recommend_similar_songs (app.py lines 57-73): resolve the
seed title by a limit-1 track search; if no track comes back return the
single sentinel entry; otherwise ask the recommender for similar tracks
seeded by the top hit's id and format them; any exception yields the error
sentinel. -/
def recommend_similar_songs (env : RecEnv) (song_title : String)
    (num_recommendations : Nat) : List String :=
  match env.exn with
  | some _ => ["Error fetching recommendations."]
  | none =>
    match (env.searchResults song_title).take 1 with
    | [] => ["No similar songs found."]
    | t :: _ =>
      (env.recommendations t.id num_recommendations).map
        (fun r => r.name ++ " by " ++ r.artist)

/-- One outbound call site of the pipeline, with the timeout the source
passes there (none when the call site sets no timeout). -/
structure CallSite where
  site : String
  timeout : Option Nat
  deriving DecidableEq, Repr

/-- The keyword-search call site (app.py lines 34-39): requests.get on the
Serper search URL with timeout=10. -/
def serperSearchSite : CallSite := ⟨"requests.get serper search", some 10⟩

/-- Every outbound call site appearing in the pipeline sources, with the
timeout argument each one passes: only the keyword-search requests.get sets
one (app.py line 38); no spotipy or agent call passes any timeout. -/
def pipelineCallSites : List CallSite :=
  [serperSearchSite,
   ⟨"spotify.search", none⟩,
   ⟨"spotify.recommendations", none⟩,
   ⟨"sp.user_playlist_create", none⟩,
   ⟨"sp.search", none⟩,
   ⟨"sp.playlist_add_items", none⟩,
   ⟨"agent.chat", none⟩]

/-- An evaluation event of straight-line Python code: binding a local or
attribute, looking up a global name, or performing an external
(network or filesystem) call. -/
inductive PyEvent where
  | assign (n : String)
  | lookup (n : String)
  | extCall (n : String)
  deriving DecidableEq, Repr

/-- Run a sequence of evaluation events under a set of defined module-level
names: a lookup of an undefined name raises NameError and halts, so no
later event runs.  Returns the external calls actually performed and the
name whose lookup failed, if any. -/
def runEvents (defined : List String) : List PyEvent → List String × Option String
  | [] => ([], none)
  | PyEvent.assign _ :: rest => runEvents defined rest
  | PyEvent.lookup n :: rest =>
    if n ∈ defined then runEvents defined rest else ([], some n)
  | PyEvent.extCall n :: rest =>
    let r := runEvents defined rest
    (n :: r.1, r.2)

/-- The module-level names defined in main2.py: its imports (lines 1-11,
note spotipy.oauth2 contributes only SpotifyOAuth) plus the two
module-level definitions. -/
def main2ModuleNames : List String :=
  ["os", "spotipy", "SpotifyOAuth", "load_dotenv", "List",
   "SimpleDirectoryReader", "VectorStoreIndex", "ToolMetadata", "Groq",
   "JinaEmbedding", "ReActAgent", "QueryEngineTool", "FunctionTool",
   "ChatMemoryBuffer", "create_spotify_playlist",
   "PlaylistGeneratorWithLlamaIndex"]

/-- Evaluation events of PlaylistGeneratorWithLlamaIndex.__init__ in
main2.py (lines 55-68) in Python evaluation order: the two attribute
assignments, then the lookup of spotipy for spotipy.Spotify, then the lookup
of the callee SpotifyClientCredentials of the keyword-argument expression
(which precedes evaluation of its os.getenv arguments), then the remaining
argument lookups, client construction, and the index-loading work that would
follow. -/
def main2InitEvents : List PyEvent :=
  [PyEvent.assign "self.data_path",
   PyEvent.assign "self.index_path",
   PyEvent.lookup "spotipy",
   PyEvent.lookup "SpotifyClientCredentials",
   PyEvent.lookup "os",
   PyEvent.lookup "os",
   PyEvent.extCall "spotipy.Spotify construction",
   PyEvent.extCall "os.path.exists on index dir",
   PyEvent.extCall "SimpleDirectoryReader.load_data",
   PyEvent.extCall "VectorStoreIndex.from_documents"]

/-- Test whether an issued call is a playlist-creation call. -/
def isCreateCall (c : IssuedCall) : Bool :=
  match c.call with
  | ApiCall.userPlaylistCreate _ _ _ => true
  | _ => false

/-- Test whether an issued call is a catalog search. -/
def isSearchCall (c : IssuedCall) : Bool :=
  match c.call with
  | ApiCall.search _ _ _ => true
  | _ => false

/-- The uri lists carried by the playlistAddItems calls of a trace, in
order. -/
def addedUriLists (trace : List IssuedCall) : List (List String) :=
  trace.filterMap (fun c =>
    match c.call with
    | ApiCall.playlistAddItems _ uris => some uris
    | _ => none)

theorem resolveLoop_fst (env : SpotifyEnv) (songs : List String) :
    (resolveLoop env songs).1 = songs.filterMap (resolveTrackUri env) := by
  induction songs with
  | nil => rfl
  | cons s rest ih =>
    rw [resolveLoop, List.filterMap_cons]
    cases h : (env.searchResults s).take 1 <;>
      simp [resolveTrackUri, h, ih]

theorem resolveLoop_snd (env : SpotifyEnv) (songs : List String) :
    (resolveLoop env songs).2 = songs.map (fun s =>
      (⟨AuthMode.oauthUser oauthScope, ApiCall.search s "track" 1⟩ : IssuedCall)) := by
  induction songs with
  | nil => rfl
  | cons s rest ih =>
    rw [resolveLoop]
    cases h : (env.searchResults s).take 1 <;> simp [h, ih]

theorem create_spotify_playlist_eq (env : SpotifyEnv) (uid nm : String)
    (songs : List String) :
    create_spotify_playlist env uid nm songs =
      (successMessage (env.createdPlaylistId uid nm),
       ⟨AuthMode.oauthUser oauthScope, ApiCall.userPlaylistCreate uid nm false⟩ ::
         (songs.map (fun s =>
            (⟨AuthMode.oauthUser oauthScope, ApiCall.search s "track" 1⟩ : IssuedCall)) ++
          (if (songs.filterMap (resolveTrackUri env)).isEmpty then []
           else [⟨AuthMode.oauthUser oauthScope,
                  ApiCall.playlistAddItems (env.createdPlaylistId uid nm)
                    (songs.filterMap (resolveTrackUri env))⟩]))) := by
  simp only [create_spotify_playlist, resolveLoop_fst, resolveLoop_snd]

theorem addedUriLists_searchCalls (songs : List String) :
    addedUriLists (songs.map (fun s =>
      (⟨AuthMode.oauthUser oauthScope, ApiCall.search s "track" 1⟩ : IssuedCall))) = [] := by
  induction songs with
  | nil => rfl
  | cons s rest ih => simp [addedUriLists, List.filterMap_cons]

theorem addedUriLists_create (env : SpotifyEnv) (uid nm : String)
    (songs : List String) :
    addedUriLists (create_spotify_playlist env uid nm songs).2 =
      if (songs.filterMap (resolveTrackUri env)).isEmpty then []
      else [songs.filterMap (resolveTrackUri env)] := by
  rw [create_spotify_playlist_eq]
  have hsearch := addedUriLists_searchCalls songs
  by_cases h : (songs.filterMap (resolveTrackUri env)).isEmpty <;>
    simp only [addedUriLists, List.filterMap_cons, List.filterMap_append] at hsearch ⊢ <;>
    simp [h, hsearch]

theorem countP_isCreateCall_create (env : SpotifyEnv) (uid nm : String)
    (songs : List String) :
    (create_spotify_playlist env uid nm songs).2.countP isCreateCall = 1 := by
  rw [create_spotify_playlist_eq]
  rw [List.countP_cons_of_pos _ _ (by rfl)]
  rw [List.countP_append]
  have h1 : (songs.map (fun s =>
      (⟨AuthMode.oauthUser oauthScope, ApiCall.search s "track" 1⟩ : IssuedCall))).countP
        isCreateCall = 0 := by
    rw [List.countP_eq_zero]
    intro a ha
    obtain ⟨s, _, rfl⟩ := List.mem_map.mp ha
    simp [isCreateCall]
  rw [h1]
  by_cases h : (songs.filterMap (resolveTrackUri env)).isEmpty <;>
    simp [h, isCreateCall]

/-- Environment in which every catalog search returns no tracks. -/
def envNoTracks : SpotifyEnv :=
  { searchResults := fun _ => []
    createdPlaylistId := fun _ _ => "PL0"
    chatResponse := fun q => q }

/-- A sample catalog track used by concrete witnesses. -/
def trackA : Track :=
  { name := "Song A", artist := "Artist A", id := "idA",
    uri := "spotify:track:idA" }

/-- Environment in which exactly the query "Song A" resolves. -/
def envOne : SpotifyEnv :=
  { searchResults := fun q => if q = "Song A" then [trackA] else []
    createdPlaylistId := fun _ _ => "3cEYpjA9oz9GiPac4AsH4n"
    chatResponse := fun q => q }

/-- Claim C1, counterexample: in the agent variant with an environment where
the song-recommendation tool finds zero tracks, the tool yields its sentinel
string, yet generate_playlist still invokes the Materializer and a playlist
creation call is issued — the pipeline does not terminate in any
Failed(NoCandidatesFound) state and a playlist is created. -/
theorem zero_candidates_still_creates_playlist :
    envNoTracks.searchResults (envNoTracks.chatResponse "relaxing music") = []
    ∧ (song_recommendation_function envNoTracks
        (envNoTracks.chatResponse "relaxing music")).1
      = "No song recommendations found."
    ∧ (generate_playlist envNoTracks "relaxing music" "alice").2.countP
        isCreateCall = 1 := by
  decide

/-- Claim C1 as amended: when the song-recommendation tool returns no
tracks, its sentinel output is split into the one-element candidate list
containing the sentinel, generate_playlist still calls
create_spotify_playlist on that list, and exactly one playlist-creation
call is issued — no NoCandidatesFound failure exists in the code. -/
theorem sentinel_candidates_reach_materializer (env : SpotifyEnv)
    (user_query user_id : String)
    (h : env.searchResults (env.chatResponse user_query) = []) :
    splitLines (song_recommendation_function env (env.chatResponse user_query)).1
      = ["No song recommendations found."]
    ∧ (generate_playlist env user_query user_id).1
      = (create_spotify_playlist env user_id "Generated Playlist"
          ["No song recommendations found."]).1
    ∧ (generate_playlist env user_query user_id).2.countP isCreateCall = 1 := by
  have hsent : (song_recommendation_function env (env.chatResponse user_query)).1
      = "No song recommendations found." := by
    simp [song_recommendation_function, h]
  have hsplit : splitLines "No song recommendations found."
      = ["No song recommendations found."] := by decide
  refine ⟨by rw [hsent]; exact hsplit, ?_, ?_⟩
  · simp only [generate_playlist, hsent, hsplit]
  · simp only [generate_playlist]
    rw [List.countP_append, countP_isCreateCall_create]
    simp [song_recommendation_function, isCreateCall]

theorem sentinel_candidates_reach_materializer_witness :
    splitLines (song_recommendation_function envNoTracks
        (envNoTracks.chatResponse "chill evening")).1
      = ["No song recommendations found."]
    ∧ (generate_playlist envNoTracks "chill evening" "alice").1
      = (create_spotify_playlist envNoTracks "alice" "Generated Playlist"
          ["No song recommendations found."]).1
    ∧ (generate_playlist envNoTracks "chill evening" "alice").2.countP
        isCreateCall = 1 :=
  sentinel_candidates_reach_materializer envNoTracks "chill evening" "alice"
    (by decide)

/-- Claim C2: when at least one candidate is supplied and at least one
resolves, the trace holds exactly one batched append whose uri sequence is
the resolved candidates in resolution order, with length the number of
resolving candidates (duplicates counted, none dropped). -/
theorem resolved_tracks_appended_in_order (env : SpotifyEnv) (uid nm : String)
    (songs : List String) (hne : songs ≠ [])
    (hres : ∃ s ∈ songs, (resolveTrackUri env s).isSome = true) :
    addedUriLists (create_spotify_playlist env uid nm songs).2
      = [songs.filterMap (resolveTrackUri env)]
    ∧ (songs.filterMap (resolveTrackUri env)).length
      = songs.countP (fun s => (resolveTrackUri env s).isSome) := by
  have hnil : songs.filterMap (resolveTrackUri env) ≠ [] := by
    intro hcontra
    obtain ⟨s, hs, hsome⟩ := hres
    have hnone := (List.filterMap_eq_nil_iff.mp hcontra) s hs
    simp [hnone] at hsome
  refine ⟨?_, List.length_filterMap_eq_countP _ _⟩
  rw [addedUriLists_create]
  simp [hnil]

/-- Concrete candidate list used by witnesses: one resolving name and one
unresolvable name. -/
def songsW : List String := ["Song A", "Unknown Song"]

theorem resolved_tracks_appended_in_order_witness :
    addedUriLists (create_spotify_playlist envOne "alice" "Study Mix" songsW).2
      = [songsW.filterMap (resolveTrackUri envOne)]
    ∧ (songsW.filterMap (resolveTrackUri envOne)).length
      = songsW.countP (fun s => (resolveTrackUri envOne s).isSome) :=
  resolved_tracks_appended_in_order envOne "alice" "Study Mix" songsW
    (by decide) ⟨"Song A", by decide, by decide⟩

/-- Claim C3: an append call appears in the trace exactly when some
candidate resolved, any append call carries the whole resolved set in one
batch, and when every candidate fails to resolve the playlist-creation call
is still issued, no append call is made, and the success confirmation is
still returned. -/
theorem all_unresolved_partial_success (env : SpotifyEnv) (uid nm : String)
    (songs : List String) :
    ((addedUriLists (create_spotify_playlist env uid nm songs).2 ≠ [])
      ↔ songs.filterMap (resolveTrackUri env) ≠ [])
    ∧ (∀ uris ∈ addedUriLists (create_spotify_playlist env uid nm songs).2,
        uris = songs.filterMap (resolveTrackUri env))
    ∧ ((∀ s ∈ songs, resolveTrackUri env s = none) →
        (create_spotify_playlist env uid nm songs).2.countP isCreateCall = 1
        ∧ addedUriLists (create_spotify_playlist env uid nm songs).2 = []
        ∧ (create_spotify_playlist env uid nm songs).1
          = successMessage (env.createdPlaylistId uid nm)) := by
  refine ⟨?_, ?_, ?_⟩
  · rw [addedUriLists_create]
    by_cases h : (songs.filterMap (resolveTrackUri env)).isEmpty <;> simp_all
  · rw [addedUriLists_create]
    intro uris huris
    split at huris <;> simp_all
  · intro hall
    have hnil : songs.filterMap (resolveTrackUri env) = [] :=
      List.filterMap_eq_nil_iff.mpr hall
    refine ⟨countP_isCreateCall_create env uid nm songs, ?_, ?_⟩
    · rw [addedUriLists_create]; simp [hnil]
    · rw [create_spotify_playlist_eq]

theorem all_unresolved_partial_success_witness :
    (create_spotify_playlist envNoTracks "bob" "Empty Mix" ["X", "Y"]).2.countP
        isCreateCall = 1
    ∧ addedUriLists
        (create_spotify_playlist envNoTracks "bob" "Empty Mix" ["X", "Y"]).2 = []
    ∧ (create_spotify_playlist envNoTracks "bob" "Empty Mix" ["X", "Y"]).1
      = successMessage (envNoTracks.createdPlaylistId "bob" "Empty Mix") :=
  (all_unresolved_partial_success envNoTracks "bob" "Empty Mix" ["X", "Y"]).2.2
    (by decide)

/-- Claim C4: the trace holds exactly one catalog search per candidate, in
order, each with type "track" and limit 1; resolution yields the top hit's
uri when the result list is non-empty and none (not an error) when it is
empty; and unresolved candidates are not fatal — the pipeline still returns
its success confirmation. -/
theorem resolver_single_search_limit_one (env : SpotifyEnv) (uid nm : String)
    (songs : List String) :
    ((create_spotify_playlist env uid nm songs).2.filter isSearchCall
      = songs.map (fun s =>
          (⟨AuthMode.oauthUser oauthScope, ApiCall.search s "track" 1⟩ : IssuedCall)))
    ∧ (∀ s, env.searchResults s = [] → resolveTrackUri env s = none)
    ∧ (∀ s t ts, env.searchResults s = t :: ts →
        resolveTrackUri env s = some t.uri)
    ∧ (create_spotify_playlist env uid nm songs).1
      = successMessage (env.createdPlaylistId uid nm) := by
  refine ⟨?_, ?_, ?_, ?_⟩
  · rw [create_spotify_playlist_eq]
    rw [List.filter_cons_of_neg (by simp [isSearchCall])]
    rw [List.filter_append]
    have h1 : (songs.map (fun s =>
        (⟨AuthMode.oauthUser oauthScope, ApiCall.search s "track" 1⟩ : IssuedCall))).filter
          isSearchCall
        = songs.map (fun s =>
          (⟨AuthMode.oauthUser oauthScope, ApiCall.search s "track" 1⟩ : IssuedCall)) := by
      refine List.filter_eq_self.mpr ?_
      intro a ha
      obtain ⟨s, _, rfl⟩ := List.mem_map.mp ha
      rfl
    rw [h1]
    by_cases h : (songs.filterMap (resolveTrackUri env)).isEmpty <;>
      simp [h, isSearchCall]
  · intro s hs; simp [resolveTrackUri, hs]
  · intro s t ts hs; simp [resolveTrackUri, hs]
  · rw [create_spotify_playlist_eq]

theorem resolver_single_search_limit_one_witness :
    ((create_spotify_playlist envOne "alice" "Seed Mix" ["Song A"]).2.filter
        isSearchCall
      = ["Song A"].map (fun s =>
          (⟨AuthMode.oauthUser oauthScope, ApiCall.search s "track" 1⟩ : IssuedCall)))
    ∧ resolveTrackUri envOne "Unknown Song" = none
    ∧ resolveTrackUri envOne "Song A" = some trackA.uri :=
  ⟨(resolver_single_search_limit_one envOne "alice" "Seed Mix" ["Song A"]).1,
   (resolver_single_search_limit_one envOne "alice" "Seed Mix" ["Song A"]).2.1
     "Unknown Song" (by decide),
   (resolver_single_search_limit_one envOne "alice" "Seed Mix" ["Song A"]).2.2.1
     "Song A" trackA [] (by decide)⟩

/-- Return value of create_playlist (app.py lines 47-54), which is
heterogeneous in the source: the sentinel pair ("No songs found.", [])
when no titled result was extracted — which covers every error path —
or the bare list of extracted titles. -/
inductive CreatePlaylistResult where
  | sentinelPair (msg : String) (songs : List String)
  | titles (songs : List String)
  deriving DecidableEq, Repr

/-- Embedding of create_playlist (app.py lines 47-54): fetch the search
response, extract the titled organic results (line 49), and return the
sentinel pair when that list is empty (lines 51-52), the bare title list
otherwise (line 54).  The second component carries the warnings surfaced by
fetch_playlist_data. -/
def create_playlist (outcome : SerperOutcome) :
    CreatePlaylistResult × List String :=
  let r := fetch_playlist_data outcome
  let rel := relevant_songs r.1
  (if rel.isEmpty then CreatePlaylistResult.sentinelPair "No songs found." []
   else CreatePlaylistResult.titles rel, r.2)

/-- Claim C5, counterexample: on a concrete HTTP error the candidate source
create_playlist does not return an empty sequence of candidates — it
returns the sentinel pair ("No songs found.", []), a two-element truthy
value distinct from any bare title list — although the warning is surfaced
and the error is not propagated. -/
theorem error_path_returns_sentinel_pair :
    (create_playlist (SerperOutcome.requestError "HTTP 500")).1
      = CreatePlaylistResult.sentinelPair "No songs found." []
    ∧ (∀ songs : List String,
        (create_playlist (SerperOutcome.requestError "HTTP 500")).1
          ≠ CreatePlaylistResult.titles songs)
    ∧ (create_playlist (SerperOutcome.requestError "HTTP 500")).2
      = ["Error fetching data from Serper: HTTP 500"] := by
  refine ⟨rfl, ?_, rfl⟩
  intro songs hcontra
  exact CreatePlaylistResult.noConfusion hcontra

/-- Claim C5 as amended: on any transport or HTTP error the keyword-search
source surfaces exactly the caught error as a warning and does not
propagate it, the underlying fetch yields an empty organic body so the
extracted candidate list is empty, and create_playlist then returns the
sentinel pair ("No songs found.", []) rather than an empty sequence; on
success with at least one titled organic result it returns the bare list
of exactly the title fields of the organic results that have one, in
result order, with no warning. -/
theorem keyword_source_error_sentinel (e : String)
    (organic : List OrganicResult)
    (h : organic.filterMap (fun r => r.title) ≠ []) :
    ((create_playlist (SerperOutcome.requestError e)).1
        = CreatePlaylistResult.sentinelPair "No songs found." []
      ∧ (create_playlist (SerperOutcome.requestError e)).2
        = ["Error fetching data from Serper: " ++ e]
      ∧ relevant_songs (fetch_playlist_data (SerperOutcome.requestError e)).1 = [])
    ∧ ((create_playlist (SerperOutcome.ok organic)).1
        = CreatePlaylistResult.titles (organic.filterMap (fun r => r.title))
      ∧ (create_playlist (SerperOutcome.ok organic)).2 = []) := by
  refine ⟨⟨rfl, rfl, rfl⟩, ?_, rfl⟩
  simp only [create_playlist, fetch_playlist_data, relevant_songs]
  rw [if_neg]
  simp [h]

/-- Concrete organic result list used by the C5 witness: one titled result
and one untitled result. -/
def organicW : List OrganicResult := [⟨some "Song A"⟩, ⟨none⟩]

theorem keyword_source_error_sentinel_witness :
    ((create_playlist (SerperOutcome.requestError "timeout")).1
        = CreatePlaylistResult.sentinelPair "No songs found." []
      ∧ (create_playlist (SerperOutcome.requestError "timeout")).2
        = ["Error fetching data from Serper: " ++ "timeout"]
      ∧ relevant_songs
          (fetch_playlist_data (SerperOutcome.requestError "timeout")).1 = [])
    ∧ ((create_playlist (SerperOutcome.ok organicW)).1
        = CreatePlaylistResult.titles (organicW.filterMap (fun r => r.title))
      ∧ (create_playlist (SerperOutcome.ok organicW)).2 = []) :=
  keyword_source_error_sentinel "timeout" organicW (by decide)

/-- Environment for the recommender in which the seed search succeeds but
the recommendations call returns no tracks. -/
def envSeedOnly : RecEnv :=
  { searchResults := fun _ => [trackA]
    recommendations := fun _ _ => []
    exn := none }

/-- Environment for the recommender in which the seed search finds
nothing. -/
def envNoSeed : RecEnv :=
  { searchResults := fun _ => []
    recommendations := fun _ _ => []
    exn := none }

/-- Claim C6, counterexample: with a seed that resolves and a recommender
returning no tracks, recommend_similar_songs returns the empty sequence,
not the single sentinel entry the claim requires in that case. -/
theorem empty_recommendations_yield_empty_list :
    envSeedOnly.exn = none
    ∧ envSeedOnly.searchResults "Some Song" ≠ []
    ∧ envSeedOnly.recommendations trackA.id 5 = []
    ∧ recommend_similar_songs envSeedOnly "Some Song" 5 = [] := by
  decide

/-- Claim C6 as amended: the single sentinel entry is returned only when
the seed title cannot be resolved; when the seed resolves but the
recommender returns no tracks, the result is the empty sequence. -/
theorem recommender_sentinel_only_for_seed_failure (env : RecEnv)
    (title : String) (n : Nat) (hx : env.exn = none) :
    (env.searchResults title = [] →
      recommend_similar_songs env title n = ["No similar songs found."])
    ∧ (∀ t ts, env.searchResults title = t :: ts →
        env.recommendations t.id n = [] →
        recommend_similar_songs env title n = []) := by
  constructor
  · intro h; simp [recommend_similar_songs, hx, h]
  · intro t ts h hr; simp [recommend_similar_songs, hx, h, hr]

theorem recommender_sentinel_only_for_seed_failure_witness :
    recommend_similar_songs envNoSeed "anything" 3 = ["No similar songs found."]
    ∧ recommend_similar_songs envSeedOnly "Some Song" 3 = [] :=
  ⟨(recommender_sentinel_only_for_seed_failure envNoSeed "anything" 3 rfl).1 rfl,
   (recommender_sentinel_only_for_seed_failure envSeedOnly "Some Song" 3 rfl).2
     trackA [] rfl rfl⟩

/-- Claim C7: the creation call in the trace is for the supplied owner and
name with the public flag false, and every call of the trace — creation,
searches and append alike — is issued by the client built with
user-delegated OAuth carrying the playlist-modify-private scope, never with
app-only client credentials. -/
theorem playlists_private_oauth_scoped (env : SpotifyEnv) (uid nm : String)
    (songs : List String) :
    (⟨AuthMode.oauthUser oauthScope, ApiCall.userPlaylistCreate uid nm false⟩ : IssuedCall)
      ∈ (create_spotify_playlist env uid nm songs).2
    ∧ (∀ c ∈ (create_spotify_playlist env uid nm songs).2,
        c.auth = AuthMode.oauthUser oauthScope)
    ∧ (∀ c ∈ (create_spotify_playlist env uid nm songs).2,
        c.auth ≠ AuthMode.clientCredentials) := by
  have hauth : ∀ c ∈ (create_spotify_playlist env uid nm songs).2,
      c.auth = AuthMode.oauthUser oauthScope := by
    intro c hc
    rw [create_spotify_playlist_eq] at hc
    simp only [List.mem_cons, List.mem_append, List.mem_map] at hc
    rcases hc with rfl | ⟨⟨s, _, rfl⟩ | hc⟩
    · rfl
    · rfl
    · split at hc
      · exact absurd hc (List.not_mem_nil c)
      · simp only [List.mem_singleton] at hc
        subst hc
        rfl
  refine ⟨?_, hauth, ?_⟩
  · rw [create_spotify_playlist_eq]
    exact List.mem_cons_self _ _
  · intro c hc hcc
    rw [hauth c hc] at hcc
    exact AuthMode.noConfusion hcc

theorem playlists_private_oauth_scoped_witness :
    (⟨AuthMode.oauthUser oauthScope,
      ApiCall.userPlaylistCreate "alice" "Night Mix" false⟩ : IssuedCall)
      ∈ (create_spotify_playlist envOne "alice" "Night Mix" ["Song A"]).2 :=
  (playlists_private_oauth_scoped envOne "alice" "Night Mix" ["Song A"]).1

/-- The URL reported inside the confirmation message: the text after the
fixed message head up to the closing parenthesis of the markdown link. -/
def reportedUrl (msg : String) : String :=
  String.mk ((msg.data.drop msgHead.data.length).takeWhile (fun c => c != ')'))

/-- Parse a playlist id out of a playlist URL by removing the fixed URL
base. -/
def parsePlaylistId (url : String) : String :=
  String.mk (url.data.drop urlBase.data.length)

/-- Claim C8: the confirmation message is derived deterministically from
the playlist identifier the creation call returned, and parsing that
identifier back out of the reported URL returns it exactly, provided the
identifier contains no closing parenthesis (service identifiers are
alphanumeric). -/
theorem url_roundtrip (env : SpotifyEnv) (uid nm : String) (songs : List String)
    (h : ∀ c ∈ (env.createdPlaylistId uid nm).data, c ≠ ')') :
    (create_spotify_playlist env uid nm songs).1
      = successMessage (env.createdPlaylistId uid nm)
    ∧ reportedUrl (create_spotify_playlist env uid nm songs).1
      = urlBase ++ env.createdPlaylistId uid nm
    ∧ parsePlaylistId (reportedUrl (create_spotify_playlist env uid nm songs).1)
      = env.createdPlaylistId uid nm := by
  have hmsg : (create_spotify_playlist env uid nm songs).1
      = successMessage (env.createdPlaylistId uid nm) := by
    rw [create_spotify_playlist_eq]
  have hdata : (successMessage (env.createdPlaylistId uid nm)).data
      = msgHead.data ++ (urlBase.data ++ ((env.createdPlaylistId uid nm).data ++ [')'])) := by
    simp [successMessage, String.data_append, List.append_assoc]
  have hrep : reportedUrl (successMessage (env.createdPlaylistId uid nm))
      = urlBase ++ env.createdPlaylistId uid nm := by
    unfold reportedUrl
    rw [hdata, List.drop_left]
    rw [List.takeWhile_append_of_pos (by decide)]
    rw [List.takeWhile_append_of_pos (fun a ha => by simpa using h a ha)]
    rw [List.takeWhile_cons_of_neg (by decide)]
    exact String.ext (by simp [String.data_append])
  have hparse : parsePlaylistId (urlBase ++ env.createdPlaylistId uid nm)
      = env.createdPlaylistId uid nm := by
    unfold parsePlaylistId
    rw [String.data_append, List.drop_left]
  exact ⟨hmsg, by rw [hmsg]; exact hrep, by rw [hmsg, hrep]; exact hparse⟩

theorem url_roundtrip_witness :
    parsePlaylistId (reportedUrl
        (create_spotify_playlist envOne "alice" "Morning Mix" []).1)
      = envOne.createdPlaylistId "alice" "Morning Mix" :=
  (url_roundtrip envOne "alice" "Morning Mix" [] (by decide)).2.2

/-- Claim C9: the keyword-search call site carries the fixed timeout of 10,
and it is the only outbound call site of the pipeline that sets any
timeout. -/
theorem keyword_search_sole_timeout :
    serperSearchSite.timeout = some 10
    ∧ serperSearchSite ∈ pipelineCallSites
    ∧ ∀ c ∈ pipelineCallSites, c.timeout ≠ none → c = serperSearchSite := by
  decide

/-- Claim C10: running the evaluation events of
PlaylistGeneratorWithLlamaIndex.__init__ in main2.py under the module's
defined names raises NameError on SpotifyClientCredentials with zero
external calls performed, and neither SpotifyClientCredentials nor the
names load_index needs (StorageContext, load_index_from_storage) is defined
in the module — so this variant never reaches playlist generation. -/
theorem main2_init_nameerror :
    runEvents main2ModuleNames main2InitEvents
      = ([], some "SpotifyClientCredentials")
    ∧ "SpotifyClientCredentials" ∉ main2ModuleNames
    ∧ "StorageContext" ∉ main2ModuleNames
    ∧ "load_index_from_storage" ∉ main2ModuleNames := by
  decide

end ChordCloud
